import Mathlib

/-!
Verification of the headless playback CI harness (`src/ci/headless_playback.py`)
against its natural-language specification.

The harness is embedded shallowly:

* A fixture record from the JSON matrix becomes the `Fixture` structure; a field
  absent from the JSON object is `none` (Python `dict.get` returns `None`).
* Python truthiness of an optional string (`not s` is true for both `None` and
  the empty string) is `pyFalsy`.
* Filesystem contents are a list of existing paths. Side effects (directory
  creation, network download, subprocess execution, report writing) are recorded
  as an explicit event trace; every function returns its trace together with its
  result, and a raised exception is an `Except.error`.
* Wall-clock durations are modelled in hundredths of a second, matching the
  two-decimal formatting `{duration:.2f}` used by the script.
* The subprocess outcome for a fixture (exit code and merged stdout/stderr) and
  the build outcome are supplied by an ambient `World`, since the binary under
  test and the build tool are external collaborators.
-/

/-- One fixture record from the fixture matrix JSON, as read by the script.
Optional fields model Python `dict.get` returning `None` when absent. -/
structure Fixture where
  id : String
  file : Option String
  url : Option String
  codec : Option String
  container : Option String
  frames : Option Nat
  suite : Option String
deriving Repr, DecidableEq

/-- Python truthiness test `not s` for an optional string: true when the value
is absent (`None`) or the empty string. -/
def pyFalsy : Option String → Bool
  | none => true
  | some s => s.isEmpty

/-- Python string interpolation of an optional value: `f"{x}"` prints `None`
for an absent value. -/
def pyStrOpt : Option String → String
  | none => "None"
  | some s => s

/-- Observable side effects of a run, recorded in order. -/
inductive Event where
  | mkdirDownloads
  | download (id : String) (url : String)
  | build
  | runFixture (id : String)
  | writeReport
deriving Repr, DecidableEq

/-- The exceptions the script can raise (all are `RuntimeError` in the source;
they are distinguished here by raise site, mirroring the spec's taxonomy). -/
inductive Err where
  | catalogError
  | selectionError
  | missingFileOrUrl (id : String)
  | buildError
  | binaryNotFound
  | downloadError
deriving Repr, DecidableEq

/-- Path concatenation `dir / file` (POSIX form, as `pathlib` renders it). -/
def path_join (dir file : String) : String := dir ++ "/" ++ file

/-- `load_fixtures`: the parsed `fixtures` array of the matrix file; raises when
it is empty (`data.get("fixtures", [])` followed by `if not fixtures`). -/
def load_fixtures (fixtures : List Fixture) : Except Err (List Fixture) :=
  if fixtures.isEmpty then .error .catalogError else .ok fixtures

/-- Suite selection in `main`: the catalog is filtered only when the requested
suite is `"smoke"` (`if args.suite == "smoke": fixtures = [f for f in fixtures
if f.get("suite") == "smoke"]`); any other suite value leaves it untouched. -/
def select_suite (fixtures : List Fixture) (suite : String) : List Fixture :=
  if suite = "smoke" then fixtures.filter (fun f => f.suite == some "smoke")
  else fixtures

/-- `ensure_download fixture downloads_dir fetchOk fs` returns the event trace,
the filesystem after the call, and the resulting path or exception. Mirrors the
source: validate `file`/`url` first, then `mkdir`, then serve from cache if the
target exists, else invoke `urllib.request.urlretrieve`. The network is an
external collaborator, so whether the fetch of a given URL succeeds is supplied
by `fetchOk`; a failed fetch raises (the spec's `DownloadError`) and leaves no
new file behind. -/
def ensure_download (fixture : Fixture) (downloads_dir : String)
    (fetchOk : String → Bool) (fs : List String) :
    List Event × List String × Except Err String :=
  if pyFalsy fixture.file || pyFalsy fixture.url then
    ([], fs, .error (.missingFileOrUrl fixture.id))
  else
    let target := path_join downloads_dir (fixture.file.getD "")
    if target ∈ fs then
      ([.mkdirDownloads], fs, .ok target)
    else if fetchOk (fixture.url.getD "") then
      ([.mkdirDownloads, .download fixture.id (fixture.url.getD "")],
       target :: fs, .ok target)
    else
      ([.mkdirDownloads, .download fixture.id (fixture.url.getD "")],
       fs, .error .downloadError)

/-- The deterministic binary location computed in `build_binary` and in the
`binary is None` fallback of `main`. -/
def binary_path (release : Bool) : String :=
  "target/" ++ (if release then "release" else "debug") ++ "/slain"

/-- Outcomes supplied by the external collaborators: whether `cargo build`
succeeds, which paths exist before the run, each fixture's subprocess exit
code, merged output and duration (hundredths of a second) keyed by fixture id,
and whether fetching a given URL succeeds. -/
structure World where
  buildOk : Bool
  fs : List String
  returncode : String → Int
  stdout : String → String
  durationCs : String → Nat
  fetchOk : String → Bool

/-- `build_binary`: run the build collaborator (raising on non-zero exit via
`check=True`), then require the expected binary path to exist. -/
def build_binary (release : Bool) (w : World) : List Event × Except Err String :=
  if !w.buildOk then ([.build], .error .buildError)
  else if binary_path release ∈ w.fs then ([.build], .ok (binary_path release))
  else ([.build], .error .binaryNotFound)

/-- Two-digit fractional part of a centisecond count, as `{x:.2f}` renders it. -/
def twoDigitFrac (n : Nat) : String :=
  (if n < 10 then "0" else "") ++ toString n

/-- `f"{duration:.2f}"` on a duration of `cs` hundredths of a second. -/
def fmt2 (cs : Nat) : String :=
  toString (cs / 100) ++ "." ++ twoDigitFrac (cs % 100)

/-- The per-fixture outcome record built by `run_fixture`. -/
structure FixtureResult where
  id : String
  codec : Option String
  container : Option String
  frames : Nat
  result : String
  log : String
  duration : Nat
deriving Repr, DecidableEq

/-- The subprocess outcome: exit code and merged stdout/stderr text. -/
structure ProcResult where
  returncode : Int
  stdout : String
deriving Repr, DecidableEq

/-- The environment dictionary handed to the subprocess: a copy of the caller's
environment (`os.environ.copy()`) with `env.setdefault("RUST_LOG", "info")`
applied; the caller's own environment is returned unchanged alongside it.
Environments are association lists with first-match lookup. -/
def setdefault (e : List (String × String)) (k v : String) :
    List (String × String) :=
  if (e.lookup k).isSome then e else e ++ [(k, v)]

/-- The environment-preparation step of `run_fixture`: from the global
environment it produces the subprocess environment and the (unchanged) global
environment after the call. -/
def run_fixture_env_step (osEnviron : List (String × String)) :
    List (String × String) × List (String × String) :=
  (setdefault osEnviron "RUST_LOG" "info", osEnviron)

/-- `run_fixture`: builds the FixtureResult, the log path and the log file
contents from the fixture, the resolved input path and the subprocess outcome.
Returns `(result, log_path, log_content)`. -/
def run_fixture (f : Fixture) (file_path : String) (log_dir : String)
    (proc : ProcResult) (durationCs : Nat) :
    FixtureResult × String × String :=
  let fixture_id := f.id
  let frames := f.frames.getD 60
  let log_path := path_join log_dir (fixture_id ++ ".log")
  let log_content :=
    "fixture: " ++ fixture_id ++ "\n" ++
    "codec: " ++ pyStrOpt f.codec ++ "\n" ++
    "container: " ++ pyStrOpt f.container ++ "\n" ++
    "file: " ++ file_path ++ "\n" ++
    "frames: " ++ toString frames ++ "\n" ++
    "exit_code: " ++ toString proc.returncode ++ "\n" ++
    "duration_seconds: " ++ fmt2 durationCs ++ "\n" ++
    "\n--- output ---\n" ++
    proc.stdout
  (⟨fixture_id, f.codec, f.container, frames,
    if proc.returncode = 0 then "pass" else "fail",
    log_path, durationCs⟩,
   log_path, log_content)

/-- Command-line arguments of the script relevant to control flow. -/
structure Args where
  suite : String
  skip_build : Bool
  release : Bool
  log_dir : String
deriving Repr, DecidableEq

/-- The fixed downloads directory used by `main`. -/
def downloads_dir : String := "slain-player/fixtures/downloads"

/-- The fixture loop of `main`: for each fixture, ensure its asset (threading
the filesystem), fall back to the computed binary path when no binary was
built, run the fixture, and append its result. A raised exception aborts the
loop. -/
def run_fixtures_loop (args : Args) (w : World) :
    Option String → List String → List Fixture →
    List Event × Except Err (List FixtureResult)
  | _, _, [] => ([], .ok [])
  | binary, fs, f :: rest =>
    match ensure_download f downloads_dir w.fetchOk fs with
    | (ev, _, .error e) => (ev, .error e)
    | (ev, fs', .ok file_path) =>
      let b := binary.getD (binary_path args.release)
      let fr := (run_fixture f file_path args.log_dir
        ⟨w.returncode f.id, w.stdout f.id⟩ (w.durationCs f.id)).1
      match run_fixtures_loop args w (some b) fs' rest with
      | (ev2, .error e) => (ev ++ Event.runFixture f.id :: ev2, .error e)
      | (ev2, .ok rs) => (ev ++ Event.runFixture f.id :: ev2, .ok (fr :: rs))

/-- The final exit decision of `main`: collect the non-`pass` results; return 1
when any exist, else 0. -/
def exit_decision (results : List FixtureResult) : Nat :=
  let failures := results.filter (fun r => r.result != "pass")
  if failures.isEmpty then 0 else 1

/-- `main` up to (but excluding) report generation: load, select, provision the
binary, and run the loop, producing the event trace and the results or the
uncaught exception. -/
def main_results (args : Args) (matrix : List Fixture) (w : World) :
    List Event × Except Err (List FixtureResult) :=
  match load_fixtures matrix with
  | .error e => ([], .error e)
  | .ok fixtures0 =>
    let fixtures := select_suite fixtures0 args.suite
    if fixtures.isEmpty then ([], .error .selectionError)
    else if args.skip_build then
      run_fixtures_loop args w none w.fs fixtures
    else
      match build_binary args.release w with
      | (bev, .error e) => (bev, .error e)
      | (bev, .ok b) =>
        match run_fixtures_loop args w (some b) w.fs fixtures with
        | (lev, lres) => (bev ++ lev, lres)

/-- The whole of `main`: on normal completion the report is written and the
exit code computed from the results; an uncaught exception propagates. -/
def main_run (args : Args) (matrix : List Fixture) (w : World) :
    List Event × Except Err (List FixtureResult × Nat) :=
  match main_results args matrix w with
  | (tr, .error e) => (tr, .error e)
  | (tr, .ok results) =>
    (tr ++ [Event.writeReport], .ok (results, exit_decision results))

/-- The process exit code: `sys.exit(main())` on normal completion; an uncaught
exception makes Python exit with status 1. -/
def process_exit (r : List Event × Except Err (List FixtureResult × Nat)) : Nat :=
  match r.2 with
  | .ok (_, n) => n
  | .error _ => 1

/-- Replace an explicitly empty optional string by an absent one. -/
def blankToNone (v : Option String) : Option String :=
  if v = some "" then none else v

/-- A fixture tagged `smoke`, used as a concrete input. -/
def smokeOnlyFx : Fixture :=
  ⟨"s1", some "s1.mp4", some "http://x/s1.mp4", some "h264", some "mp4",
   some 60, some "smoke"⟩

/-- A fixture tagged `full`, used as a concrete input. -/
def fullOnlyFx : Fixture :=
  ⟨"f1", some "f1.mp4", some "http://x/f1.mp4", none, none, none, some "full"⟩

/-- A fixture whose asset is already cached, used as a concrete input. -/
def cachedFx : Fixture :=
  ⟨"c1", some "c1.mp4", some "http://x/c1.mp4", none, none, none, some "smoke"⟩

/-- A fixture whose `file` field is present but empty, used as a concrete
input. -/
def blankFileFx : Fixture :=
  ⟨"b1", some "", some "http://x/b1.mp4", none, none, none, some "smoke"⟩

/-- C1 counterexample: with `--suite full` the selection step does NOT restrict
to fixtures whose `suite` equals `"full"` — a `smoke`-tagged fixture stays
selected, contradicting the claim that other suite tags are excluded for every
choice of suite. -/
theorem C1_counterexample :
    select_suite [smokeOnlyFx] "full" ≠
      List.filter (fun f => f.suite == some "full") [smokeOnlyFx] := by
  decide

/-- C1 (amended): for suite `smoke` the selection is exactly the
order-preserving subsequence of fixtures whose `suite` field equals `"smoke"`;
for suite `full` no filtering is applied and the whole catalog is selected. -/
theorem C1_suite_selection (fixtures : List Fixture) :
    select_suite fixtures "smoke" =
      fixtures.filter (fun f => f.suite == some "smoke") ∧
    (select_suite fixtures "smoke").Sublist fixtures ∧
    select_suite fixtures "full" = fixtures := by
  refine ⟨by simp [select_suite], ?_, by simp [select_suite]⟩
  simp only [select_suite, if_pos rfl]
  exact List.filter_sublist fixtures

/-- C9: when the suite argument is `full`, no filtering is applied: the
selected fixture sequence is the entire loaded catalog, whatever each
fixture's `suite` tag is. -/
theorem C9_full_selects_entire_catalog (fixtures : List Fixture) :
    select_suite fixtures "full" = fixtures := by
  simp [select_suite]

/-- C5: for a fixture whose target file already exists at
`downloads_dir/fixture.file`, `ensure_download` returns that path with no
download event, leaves the filesystem unchanged, and a repeated call returns
the same outcome — for every possible behaviour of the network. -/
theorem C5_cached_asset_idempotent (f : Fixture) (d : String)
    (fetchOk : String → Bool) (fs : List String)
    (hfile : pyFalsy f.file = false) (hurl : pyFalsy f.url = false)
    (hcached : path_join d (f.file.getD "") ∈ fs) :
    ensure_download f d fetchOk fs =
      ([Event.mkdirDownloads], fs, .ok (path_join d (f.file.getD ""))) ∧
    (∀ i u, Event.download i u ∉ (ensure_download f d fetchOk fs).1) ∧
    ensure_download f d fetchOk (ensure_download f d fetchOk fs).2.1 =
      ensure_download f d fetchOk fs := by
  have h1 : ensure_download f d fetchOk fs =
      ([Event.mkdirDownloads], fs, .ok (path_join d (f.file.getD ""))) := by
    unfold ensure_download
    rw [hfile, hurl]
    simp [hcached]
  refine ⟨h1, ?_, ?_⟩
  · intro i u
    rw [h1]
    simp
  · rw [h1]
    exact h1

/-- C5 witness: a concrete cached fixture is served without downloading, even
in a world where every fetch would fail. -/
theorem C5_cached_asset_idempotent_witness :
    ensure_download cachedFx downloads_dir (fun _ => false)
      [path_join downloads_dir "c1.mp4"] =
      ([Event.mkdirDownloads], [path_join downloads_dir "c1.mp4"],
       .ok (path_join downloads_dir "c1.mp4")) :=
  (C5_cached_asset_idempotent cachedFx downloads_dir (fun _ => false)
    [path_join downloads_dir "c1.mp4"]
    (by decide) (by decide) (by decide)).1

/-- C10: a `file` or `url` field that is present but empty is rejected by
`ensure_download` exactly as if it were absent: the missing-file-or-url error
naming the fixture id is raised with no directory creation and no fetch, and
the outcome coincides with that for the fixture with the empty field removed. -/
theorem C10_empty_field_treated_as_missing (f : Fixture) (d : String)
    (fetchOk : String → Bool) (fs : List String)
    (h : f.file = some "" ∨ f.url = some "") :
    ensure_download f d fetchOk fs =
      ([], fs, .error (.missingFileOrUrl f.id)) ∧
    ensure_download
      ⟨f.id, blankToNone f.file, blankToNone f.url, f.codec, f.container,
       f.frames, f.suite⟩ d fetchOk fs = ensure_download f d fetchOk fs := by
  have hblank : pyFalsy (some "") = true := by decide
  have hc : (pyFalsy f.file || pyFalsy f.url) = true := by
    rcases h with h | h <;> rw [h, hblank] <;> simp
  have h1 : ensure_download f d fetchOk fs =
      ([], fs, .error (.missingFileOrUrl f.id)) := by
    unfold ensure_download
    simp [hc]
  have hc2 : (pyFalsy (blankToNone f.file) || pyFalsy (blankToNone f.url)) = true := by
    rcases h with h | h
    · rw [h]
      simp [blankToNone, pyFalsy]
    · rw [h]
      simp [blankToNone, pyFalsy]
  refine ⟨h1, ?_⟩
  rw [h1]
  unfold ensure_download
  simp [hc2]

/-- C10 witness: a concrete fixture with an empty `file` field is rejected
before any directory creation or fetch. -/
theorem C10_empty_field_treated_as_missing_witness :
    ensure_download blankFileFx downloads_dir (fun _ => true) [] =
      ([], [], .error (.missingFileOrUrl "b1")) :=
  (C10_empty_field_treated_as_missing blankFileFx downloads_dir
    (fun _ => true) [] (Or.inl rfl)).1

/-- C6: the subprocess environment is the caller's environment with `RUST_LOG`
given the default `"info"` only when the caller's environment does not already
bind it; every other key is looked up unchanged, and the global environment is
left exactly as it was. -/
theorem C6_subprocess_env_overlay (osEnviron : List (String × String)) :
    (run_fixture_env_step osEnviron).2 = osEnviron ∧
    (run_fixture_env_step osEnviron).1.lookup "RUST_LOG" =
      some ((osEnviron.lookup "RUST_LOG").getD "info") ∧
    ∀ k, k ≠ "RUST_LOG" →
      (run_fixture_env_step osEnviron).1.lookup k = osEnviron.lookup k := by
  refine ⟨rfl, ?_, ?_⟩
  · unfold run_fixture_env_step setdefault
    rcases h : osEnviron.lookup "RUST_LOG" with _ | v
    · simp only [h, Option.isSome_none, Bool.false_eq_true, if_false,
        List.lookup_append, h, Option.none_or, Option.getD_none]
      simp [List.lookup_cons]
    · simp [h]
  · intro k hk
    unfold run_fixture_env_step setdefault
    rcases h : osEnviron.lookup "RUST_LOG" with _ | v
    · simp only [h, Option.isSome_none, Bool.false_eq_true, if_false,
        List.lookup_append]
      have hb : (k == "RUST_LOG") = false := beq_eq_false_iff_ne.mpr hk
      have hsingle : ([("RUST_LOG", "info")] : List (String × String)).lookup k
          = none := by
        simp [List.lookup_cons, hb]
      rw [hsingle, Option.or_none]
    · simp [h]

/-- C6 witness: on a concrete caller environment without `RUST_LOG`, the
subprocess sees the default while an unrelated key is unchanged; on one with
`RUST_LOG` already bound, the caller's value wins. -/
theorem C6_subprocess_env_overlay_witness :
    (run_fixture_env_step [("PATH", "/usr/bin")]).2 = [("PATH", "/usr/bin")] ∧
    (run_fixture_env_step [("PATH", "/usr/bin")]).1.lookup "RUST_LOG" =
      some "info" ∧
    (run_fixture_env_step [("PATH", "/usr/bin")]).1.lookup "PATH" =
      some "/usr/bin" :=
  ⟨(C6_subprocess_env_overlay [("PATH", "/usr/bin")]).1,
   (C6_subprocess_env_overlay [("PATH", "/usr/bin")]).2.1,
   by
     have h := (C6_subprocess_env_overlay [("PATH", "/usr/bin")]).2.2
       "PATH" (by decide)
     rw [h]
     rfl⟩

/-- The fractional part printed by `{x:.2f}` always has exactly two digits. -/
theorem twoDigitFrac_length : ∀ n, n < 100 → (twoDigitFrac n).length = 2 := by
  decide

/-- C8: the log artifact for a fixture run contains, in order: fixture id,
codec, container, resolved input path, frame count, exit code, the duration
with exactly two decimal places, a separator line, then the captured output
verbatim; the log lives at `log_dir/{id}.log`; and the result field is `pass`
exactly when the subprocess exit code is 0, else `fail`. -/
theorem C8_log_fidelity (f : Fixture) (file_path log_dir : String)
    (proc : ProcResult) (cs : Nat) :
    (run_fixture f file_path log_dir proc cs).2.2 =
      "fixture: " ++ f.id ++ "\n" ++
      "codec: " ++ pyStrOpt f.codec ++ "\n" ++
      "container: " ++ pyStrOpt f.container ++ "\n" ++
      "file: " ++ file_path ++ "\n" ++
      "frames: " ++ toString (f.frames.getD 60) ++ "\n" ++
      "exit_code: " ++ toString proc.returncode ++ "\n" ++
      "duration_seconds: " ++ fmt2 cs ++ "\n" ++
      "\n--- output ---\n" ++
      proc.stdout ∧
    fmt2 cs = toString (cs / 100) ++ "." ++ twoDigitFrac (cs % 100) ∧
    (twoDigitFrac (cs % 100)).length = 2 ∧
    (run_fixture f file_path log_dir proc cs).2.1 =
      path_join log_dir (f.id ++ ".log") ∧
    ((run_fixture f file_path log_dir proc cs).1.result = "pass" ↔
      proc.returncode = 0) ∧
    ((run_fixture f file_path log_dir proc cs).1.result = "fail" ↔
      proc.returncode ≠ 0) := by
  refine ⟨rfl, rfl, twoDigitFrac_length (cs % 100) (Nat.mod_lt cs (by decide)),
    rfl, ?_, ?_⟩
  · unfold run_fixture
    by_cases h : proc.returncode = 0 <;> simp [h]
  · unfold run_fixture
    by_cases h : proc.returncode = 0 <;> simp [h]

/-- The exit decision of `main` is 0 exactly when every result is `pass`, and
it only ever takes the values 0 and 1. -/
theorem exit_decision_spec (results : List FixtureResult) :
    (exit_decision results = 0 ↔ ∀ r ∈ results, r.result = "pass") ∧
    (exit_decision results = 0 ∨ exit_decision results = 1) := by
  constructor
  · unfold exit_decision
    by_cases hE : results.filter (fun r => r.result != "pass") = []
    · simp only [hE, List.isEmpty_nil, if_true]
      constructor
      · intro _ r hr
        by_contra hne
        have hmem : r ∈ results.filter (fun r => r.result != "pass") :=
          List.mem_filter.mpr ⟨hr, bne_iff_ne.mpr hne⟩
        rw [hE] at hmem
        exact List.not_mem_nil r hmem
      · intro _
        trivial
    · have hF : (results.filter (fun r => r.result != "pass")).isEmpty = false := by
        rcases hf : results.filter (fun r => r.result != "pass") with _ | ⟨a, l⟩
        · exact absurd hf hE
        · rw [hf]
          rfl
      simp only [hF, Bool.false_eq_true, if_false]
      constructor
      · intro h
        exact absurd h (by decide)
      · intro hall
        exfalso
        rcases hf : results.filter (fun r => r.result != "pass") with _ | ⟨a, l⟩
        · exact hE hf
        · have ha : a ∈ results.filter (fun r => r.result != "pass") := by
            rw [hf]
            exact List.mem_cons_self a l
          have hm := List.mem_filter.mp ha
          exact bne_iff_ne.mp hm.2 (hall a hm.1)
  · unfold exit_decision
    by_cases h : (results.filter (fun r => r.result != "pass")).isEmpty = true
    · left
      simp [h]
    · right
      simp [h]

/-- Inversion of a completed run: when `main_run` returns normally, the exit
value is `exit_decision` of the returned results. -/
theorem main_run_ok_exit (args : Args) (matrix : List Fixture) (w : World)
    (results : List FixtureResult) (n : Nat)
    (h : (main_run args matrix w).2 = .ok (results, n)) :
    n = exit_decision results := by
  unfold main_run at h
  rcases hr : main_results args matrix w with ⟨tr, res⟩
  rw [hr] at h
  rcases res with e | rs
  · simp at h
  · simp at h
    obtain ⟨h1, h2⟩ := h
    subst h1
    exact h2.symm

/-- C2: for every completed run, the process exit code is 0 exactly when every
fixture result is `pass`, and it is 1 otherwise. -/
theorem C2_exit_code_law (args : Args) (matrix : List Fixture) (w : World)
    (results : List FixtureResult) (n : Nat)
    (h : (main_run args matrix w).2 = .ok (results, n)) :
    (n = 0 ↔ ∀ r ∈ results, r.result = "pass") ∧ (n = 0 ∨ n = 1) := by
  have hn := main_run_ok_exit args matrix w results n h
  rw [hn]
  exact exit_decision_spec results

/-- `ensure_download` never emits a report-writing event. -/
theorem writeReport_not_in_ensure (f : Fixture) (d : String)
    (fetchOk : String → Bool) (fs : List String) :
    Event.writeReport ∉ (ensure_download f d fetchOk fs).1 := by
  unfold ensure_download
  by_cases h1 : (pyFalsy f.file || pyFalsy f.url) = true
  · simp [h1]
  · by_cases h2 : path_join d (f.file.getD "") ∈ fs
    · simp [h1, h2]
    · by_cases h3 : fetchOk (f.url.getD "") = true
      · simp [h1, h2, h3]
      · simp [h1, h2, h3]

/-- `build_binary` never emits a report-writing event. -/
theorem writeReport_not_in_build (release : Bool) (w : World) :
    Event.writeReport ∉ (build_binary release w).1 := by
  unfold build_binary
  split
  · simp
  · split <;> simp

/-- The fixture loop never emits a report-writing event. -/
theorem writeReport_not_in_loop (args : Args) (w : World) (fxs : List Fixture) :
    ∀ (b : Option String) (fs : List String),
      Event.writeReport ∉ (run_fixtures_loop args w b fs fxs).1 := by
  induction fxs with
  | nil =>
    intro b fs h
    simp [run_fixtures_loop] at h
  | cons f rest ih =>
    intro b fs
    have hne := writeReport_not_in_ensure f downloads_dir w.fetchOk fs
    rcases hed : ensure_download f downloads_dir w.fetchOk fs with ⟨ev, fs', res⟩
    rw [hed] at hne
    rcases res with e | fp
    · simp only [run_fixtures_loop, hed]
      exact hne
    · have hih := ih (some (b.getD (binary_path args.release))) fs'
      rcases hloop : run_fixtures_loop args w
          (some (b.getD (binary_path args.release))) fs' rest with ⟨ev2, res2⟩
      rw [hloop] at hih
      simp only [run_fixtures_loop, hed, hloop]
      rcases res2 with e2 | rs2 <;>
      · intro hmem
        simp only [List.mem_append, List.mem_cons] at hmem
        rcases hmem with hm | hm | hm
        · exact hne hm
        · exact absurd hm (by simp)
        · exact hih hm

/-- `main` before report generation never emits a report-writing event. -/
theorem writeReport_not_in_main_results (args : Args) (matrix : List Fixture)
    (w : World) : Event.writeReport ∉ (main_results args matrix w).1 := by
  unfold main_results
  rcases hl : load_fixtures matrix with e | fixtures0
  · simp
  · simp only []
    split
    · simp
    · split
      · exact writeReport_not_in_loop args w _ none w.fs
      · rcases hb : build_binary args.release w with ⟨bev, bres⟩
        have hbn := writeReport_not_in_build args.release w
        rw [hb] at hbn
        rcases bres with e | b
        · simpa using hbn
        · have hln := writeReport_not_in_loop args w
            (select_suite fixtures0 args.suite) (some b) w.fs
          rcases hloop : run_fixtures_loop args w (some b) w.fs
              (select_suite fixtures0 args.suite) with ⟨lev, lres⟩
          rw [hloop] at hln
          simp only [hloop]
          intro hmem
          rcases List.mem_append.mp hmem with hm | hm
          · exact hbn hm
          · exact hln hm

/-- C4: every fatal error terminates the run with process exit code 1, and the
aggregate report is never written on such a run. -/
theorem C4_fatal_error_no_report (args : Args) (matrix : List Fixture)
    (w : World) (e : Err) (h : (main_run args matrix w).2 = .error e) :
    process_exit (main_run args matrix w) = 1 ∧
    Event.writeReport ∉ (main_run args matrix w).1 := by
  constructor
  · unfold process_exit
    rw [h]
  · have hm := writeReport_not_in_main_results args matrix w
    unfold main_run at h ⊢
    rcases hr : main_results args matrix w with ⟨tr, res⟩
    rw [hr] at hm
    rcases res with e' | results
    · simpa using hm
    · rw [hr] at h
      simp at h

/-- C7: an empty suite selection over a nonempty catalog aborts with the
selection error and an empty event trace: no build and no download precede
the guard. -/
theorem C7_empty_selection_guard (args : Args) (matrix : List Fixture)
    (w : World) (hne : matrix ≠ [])
    (hsel : select_suite matrix args.suite = []) :
    main_run args matrix w = ([], .error .selectionError) ∧
    Event.build ∉ (main_run args matrix w).1 ∧
    ∀ i u, Event.download i u ∉ (main_run args matrix w).1 := by
  have hE : matrix.isEmpty = false := by
    cases matrix with
    | nil => exact absurd rfl hne
    | cons a l => rfl
  have hmain : main_run args matrix w = ([], .error .selectionError) := by
    unfold main_run main_results load_fixtures
    rw [hE]
    simp [hsel]
  refine ⟨hmain, ?_, ?_⟩
  · rw [hmain]
    simp
  · intro i u
    rw [hmain]
    simp

/-- Arguments selecting the `smoke` suite with the build step skipped. -/
def smokeArgs : Args := ⟨"smoke", true, false, "artifacts/headless-logs"⟩

/-- A world in which nothing exists and every subprocess and fetch succeeds. -/
def emptyWorld : World :=
  ⟨true, [], fun _ => 0, fun _ => "", fun _ => 0, fun _ => true⟩

/-- C7 witness: a concrete catalog holding only a `full` fixture under
`--suite smoke` hits the empty-selection guard with an empty trace. -/
theorem C7_empty_selection_guard_witness :
    main_run smokeArgs [fullOnlyFx] emptyWorld = ([], .error .selectionError) :=
  (C7_empty_selection_guard smokeArgs [fullOnlyFx] emptyWorld
    (by decide) (by decide)).1

/-- Arguments for the download-failure scenario: `smoke` suite, build not
skipped. -/
def dlArgs : Args := ⟨"smoke", false, false, "logs"⟩

/-- A fixture whose asset is not cached, forcing a fetch. -/
def dlFx : Fixture :=
  ⟨"dl", some "dl.mp4", some "http://x/dl.mp4", none, none, none,
   some "smoke"⟩

/-- A world where the build succeeds and the debug binary exists but every
fetch fails. -/
def failFetchWorld : World :=
  ⟨true, [binary_path false], fun _ => 0, fun _ => "", fun _ => 0,
   fun _ => false⟩

/-- C4 witness: a concrete run whose only fixture's download fails exits with
status 1 and writes no report. -/
theorem C4_fatal_error_no_report_witness :
    process_exit (main_run dlArgs [dlFx] failFetchWorld) = 1 ∧
    Event.writeReport ∉ (main_run dlArgs [dlFx] failFetchWorld).1 :=
  C4_fatal_error_no_report dlArgs [dlFx] failFetchWorld .downloadError rfl

/-- C3 (amended): a fixture missing its `file` or `url` (or carrying an empty
one) is not rejected when the catalog is loaded — `load_fixtures` accepts any
nonempty catalog containing it — but only when the fixture is first used, by
`ensure_download`, which raises the error naming the fixture id before its
directory creation and fetch. -/
theorem C3_validation_at_first_use (f : Fixture) (d : String)
    (fetchOk : String → Bool) (fs : List String) (matrix : List Fixture)
    (h : pyFalsy f.file = true ∨ pyFalsy f.url = true) (hmem : f ∈ matrix) :
    ensure_download f d fetchOk fs =
      ([], fs, .error (.missingFileOrUrl f.id)) ∧
    load_fixtures matrix = .ok matrix := by
  constructor
  · have hc : (pyFalsy f.file || pyFalsy f.url) = true := by
      rcases h with h | h <;> simp [h]
    unfold ensure_download
    simp [hc]
  · unfold load_fixtures
    have hE : matrix.isEmpty = false := by
      cases matrix with
      | nil => simp at hmem
      | cons a l => rfl
    rw [hE]
    simp

/-- A valid fixture whose asset is already cached, preceding the invalid one
in the catalog. -/
def goodFx : Fixture :=
  ⟨"good", some "good.mp4", some "http://x/good.mp4", none, none, none,
   some "smoke"⟩

/-- An invalid fixture: its `url` field is absent. -/
def badFx : Fixture :=
  ⟨"bad", some "bad.mp4", none, none, none, none, some "smoke"⟩

/-- Arguments for the definition-validation scenario: `smoke` suite, build not
skipped. -/
def c3Args : Args := ⟨"smoke", false, false, "logs"⟩

/-- A world where the build succeeds, the debug binary exists, the first
fixture's asset is cached and every fetch succeeds. -/
def c3World : World :=
  ⟨true, [binary_path false, path_join downloads_dir "good.mp4"],
   fun _ => 0, fun _ => "", fun _ => 0, fun _ => true⟩

/-- C3 witness: the amended behaviour at a concrete invalid fixture. -/
theorem C3_validation_at_first_use_witness :
    ensure_download badFx downloads_dir (fun _ => true) [] =
      ([], [], .error (.missingFileOrUrl "bad")) ∧
    load_fixtures [goodFx, badFx] = .ok [goodFx, badFx] :=
  C3_validation_at_first_use badFx downloads_dir (fun _ => true) []
    [goodFx, badFx] (Or.inr rfl) (by decide)

/-- C3 counterexample: with a catalog whose second fixture lacks its `url`,
the missing-file-or-url error is NOT raised at catalog load: the run reaches
the build step and even executes the first fixture before raising it, so
validation does not happen at definition-construction time. -/
theorem C3_counterexample :
    (main_run c3Args [goodFx, badFx] c3World).2 =
      .error (.missingFileOrUrl "bad") ∧
    Event.build ∈ (main_run c3Args [goodFx, badFx] c3World).1 ∧
    Event.runFixture "good" ∈ (main_run c3Args [goodFx, badFx] c3World).1 :=
  ⟨rfl, by decide, by decide⟩

/-- Arguments for a concrete completed run: `full` suite, build skipped. -/
def fullArgs : Args := ⟨"full", true, false, "logs"⟩

/-- A fixture that passes in the concrete completed run. -/
def okFx : Fixture :=
  ⟨"a", some "a.mp4", some "http://x/a.mp4", some "h264", some "mp4",
   some 30, some "smoke"⟩

/-- A world where the asset of `okFx` is already cached, its playback exits
with code 0 and every fetch succeeds. -/
def okWorld : World :=
  ⟨true, [path_join downloads_dir "a.mp4"], fun _ => 0, fun _ => "ok",
   fun _ => 123, fun _ => true⟩

/-- The result sequence of the concrete completed run. -/
def okResults : List FixtureResult :=
  [⟨"a", some "h264", some "mp4", 30, "pass", path_join "logs" "a.log", 123⟩]

/-- C2 witness: a concrete completed run whose single fixture passes exits
with code 0. -/
theorem C2_exit_code_law_witness :
    ((0 : Nat) = 0 ↔ ∀ r ∈ okResults, r.result = "pass") ∧
    ((0 : Nat) = 0 ∨ (0 : Nat) = 1) :=
  C2_exit_code_law fullArgs [okFx] okWorld okResults 0 rfl
